import Mathlib

/-!
Shallow embedding of the watchface component (src/components/Watchface.tsx)
of the SVG Garmin-style watchface repository, together with proofs settling
the specified properties of its helpers and hooks.

Numbers computed by the JavaScript code are modelled as exact rationals
(battery, hand angles, icon codes) or reals (the steps simulator, which
calls Math.sin).  Math.round is modelled as rounding half toward positive
infinity, which is the JavaScript semantics.
-/

namespace Watchface

/-- Embedding of `clamp(value, min, max) = Math.min(max, Math.max(min, value))`
(Watchface.tsx lines 12-14), generic over a linear order. -/
def clamp {α : Type} [LinearOrder α] (value lo hi : α) : α :=
  min hi (max lo value)

/-- JavaScript `Math.round` on rationals: rounds half toward positive infinity. -/
def jsRoundQ (x : ℚ) : ℤ := ⌊x + 1/2⌋

/-- Embedding of `formatTwoDigits` (lines 16-18): `n.toString().padStart(2, "0")`.
`padStartTwoZero` prepends zeros until the length is at least 2. -/
def padStartTwoZero (s : String) : String :=
  if 2 ≤ s.length then s else String.mk (List.replicate (2 - s.length) '0') ++ s

def formatTwoDigits (n : ℕ) : String := padStartTwoZero (toString n)

/-! ## Battery simulator (useSimulatedBattery, lines 41-67) -/

/-- Embedding of the initial battery computation (lines 46-51):
`minutesSince = (Date.now() - last) / 60000`,
`drained = Math.max(0, baseline - minutesSince * 0.04)`,
returned value `Math.round(drained * 10) / 10`.
`elapsedMs` is `Date.now() - last` and may be negative when the persisted
timestamp lies in the future. -/
def batteryInit (baseline elapsedMs : ℚ) : ℚ :=
  let minutesSince := elapsedMs / 60000
  let drained := max 0 (baseline - minutesSince * (4/100))
  (jsRoundQ (drained * 10) : ℚ) / 10

/-- Embedding of one battery decay tick (line 58):
`next = clamp(b - 0.0007, 0, 100)`. -/
def batteryTick (b : ℚ) : ℚ := clamp (b - 7/10000) 0 100

/-! ## Hand angles (handAngle, lines 157-166) -/

structure HandAngles where
  hour : ℚ
  minute : ℚ
  second : ℚ

/-- Embedding of `handAngle` (lines 157-166): from the wall-clock hour,
minute and second of the instant it returns
`hour = (hour % 12 + minute / 60) * 30`,
`minute = (minute + second / 60) * 6`, `second = second * 6`. -/
def handAngle (h m s : ℕ) : HandAngles :=
  { hour := ((h % 12 : ℕ) + (m : ℚ) / 60) * 30
    minute := ((m : ℚ) + (s : ℚ) / 60) * 6
    second := (s : ℚ) * 6 }

/-! ## Weather code to icon (mapWeatherCodeToIcon, lines 20-30) -/

/-- Embedding of `mapWeatherCodeToIcon` (lines 20-30).  The argument models
the JavaScript `number | null`; each branch tests membership of the code in
the literal list of the corresponding source line.  The icon strings are the
ones literally present in the source file. -/
def mapWeatherCodeToIcon (code : Option ℚ) : String :=
  match code with
  | none => "?"
  | some c =>
    if c ∈ ([0] : List ℚ) then "?" -- clear
    else if c ∈ ([1, 2, 3] : List ℚ) then "?" -- partly cloudy
    else if c ∈ ([45, 48] : List ℚ) then "??" -- fog
    else if c ∈ ([51, 53, 55, 56, 57] : List ℚ) then "??" -- drizzle
    else if c ∈ ([61, 63, 65, 80, 81, 82] : List ℚ) then "??" -- rain
    else if c ∈ ([66, 67, 71, 73, 75, 77, 85, 86] : List ℚ) then "??" -- snow
    else if c ∈ ([95, 96, 99] : List ℚ) then "?" -- thunder
    else "?"

/-! ## Weather fetching (useWeather, lines 93-146) -/

/-- A JSON value, as returned by `res.json()`. -/
inductive Json where
  | null : Json
  | bool (b : Bool) : Json
  | num (q : ℚ) : Json
  | str (s : String) : Json
  | arr (elems : List Json) : Json
  | obj (fields : List (String × Json)) : Json

/-- JavaScript optional-chaining member access `v?.k`: a field lookup on an
object, `undefined` (modelled as `none`) on every other value. -/
def Json.getField : Json → String → Option Json
  | .obj fs, k => fs.lookup k
  | _, _ => none

/-- JavaScript `v?.[0]`: the first element of an array, the first character
of a nonempty string, the field named "0" of an object, otherwise undefined. -/
def Json.atIndexZero : Json → Option Json
  | .arr (x :: _) => some x
  | .str s => if s = "" then none else some (.str (s.take 1))
  | .obj fs => fs.lookup ("0")
  | _ => none

/-- JavaScript truthiness of a possibly absent value, used by the
`sunriseStr ? new Date(sunriseStr) : null` conditionals (lines 116-117). -/
def jsTruthy : Option Json → Bool
  | none => false
  | some .null => false
  | some (.bool b) => b
  | some (.num q) => decide (q ≠ 0)
  | some (.str s) => decide (s ≠ "")
  | some (.arr _) => true
  | some (.obj _) => true

/-- The `WeatherData` snapshot (lines 5-10).  The sunrise and sunset fields
hold the raw JSON value handed to `new Date(...)`; they are `none` exactly
when the source field is `null`. -/
structure WeatherData where
  temperatureC : Option ℚ
  weatherCode : Option ℚ
  sunrise : Option Json
  sunset : Option Json

/-- Extraction of a snapshot from a parsed payload (lines 112-118):
`temperatureC` is `j?.current?.temperature_2m` when that is a number, else
null; `weatherCode` likewise from `j?.current?.weather_code`; sunrise and
sunset come from `j?.daily?.sunrise?.[0]` and `j?.daily?.sunset?.[0]`,
null when falsy. -/
def extractSnapshot (j : Json) : WeatherData :=
  let tempVal := (j.getField ("current")).bind (Json.getField · ("temperature_2m"))
  let codeVal := (j.getField ("current")).bind (Json.getField · ("weather_code"))
  let sunriseStr := ((j.getField ("daily")).bind (Json.getField · ("sunrise"))).bind Json.atIndexZero
  let sunsetStr := ((j.getField ("daily")).bind (Json.getField · ("sunset"))).bind Json.atIndexZero
  { temperatureC := match tempVal with | some (.num q) => some q | _ => none
    weatherCode := match codeVal with | some (.num q) => some q | _ => none
    sunrise := if jsTruthy sunriseStr then sunriseStr else none
    sunset := if jsTruthy sunsetStr then sunsetStr else none }

/-- Outcome of one fetch attempt inside `fetchWeather` (lines 100-121):
the promise chain can reject at `fetch` (network error), at the
`!res.ok` check (line 110), or at `res.json()` (body not valid JSON);
otherwise it yields the parsed JSON payload. -/
inductive FetchOutcome where
  | networkError : FetchOutcome
  | httpError : FetchOutcome
  | jsonParseError : FetchOutcome
  | parsed (j : Json) : FetchOutcome

/-- State update performed by one fetch attempt: on any thrown error the
catch handler runs `setData((d) => ({ ...d }))` (line 120), leaving every
field unchanged; on a parsed payload line 118 replaces the snapshot with
the extracted one, independently of the previous state. -/
def fetchWeatherUpdate (d : WeatherData) : FetchOutcome → WeatherData
  | .networkError => d
  | .httpError => d
  | .jsonParseError => d
  | .parsed j => extractSnapshot j

/-! ## Weather request cadence (useWeather effect, lines 96-143)

The effect is declared with dependency array `[now]` (line 143) and `now`
is replaced by a freshly allocated `Date` object on every one-second tick
(lines 32-39), so React re-runs the effect on every tick: two `Date`
objects are never `Object.is`-equal.  Each run initiates exactly one
current-conditions request: the geolocation success callback, the
geolocation error callback and the no-geolocation branch each call
`fetchWeather` once (lines 129-138). -/

/-- One clock tick: the identity of the `Date` object produced by
`setNow(new Date())`, plus its timestamp in milliseconds. -/
structure Tick where
  objectId : ℕ
  timeMs : ℕ

/-- React re-runs an effect whenever a dependency is not `Object.is`-equal
to its previous value; object identity stands in for `Object.is`. -/
def effectReruns (prev curr : Tick) : Bool := decide (prev.objectId ≠ curr.objectId)

/-- Number of fetch requests initiated by `fetchWeather` per run of the
weather effect: exactly one on every path (lines 129-138). -/
def fetchesPerEffectRun : ℕ := 1

/-- Total number of current-conditions requests issued across a sequence of
ticks, starting from the tick `prev` that last ran the effect. -/
def weatherRequestCount : Tick → List Tick → ℕ
  | _, [] => 0
  | prev, t :: rest =>
    (if effectReruns prev t then fetchesPerEffectRun else 0) + weatherRequestCount t rest

/-- Every tick allocates a fresh `Date`, so consecutive dependency values
always have distinct object identities. -/
def allFresh : Tick → List Tick → Bool
  | _, [] => true
  | prev, t :: rest => effectReruns prev t && allFresh t rest

/-- Two instants fall within the same clock minute. -/
def sameMinute (t1 t2 : Tick) : Prop := t1.timeMs / 60000 = t2.timeMs / 60000

/-! ## Timezone projection (getZonedDate lines 174-194, formatHhMm lines 168-172) -/

/-- Modelled from the spec: `getZonedDate` delegates the timezone projection
to `Intl.DateTimeFormat` with a `timeZone` option, an external collaborator
(the browser i18n/timezone database) that is not part of src/.  Spec section
4.7 describes the projector as producing the wall-clock calendar fields of
the instant as they appear in the target zone; we model the database by the
UTC offset, in minutes, of each sample zone at the sample instants (none of
which falls in a daylight-saving period of these zones). -/
def zoneOffsetMinutes : String → Option ℤ
  | "Asia/Tokyo" => some 540
  | "Asia/Dubai" => some 240
  | "UTC" => some 0
  | _ => none

/-- Wall-clock hour and minute of a projected instant, the two calendar
fields that `formatHhMm` reads via `getHours` and `getMinutes`. -/
structure ZonedWallClock where
  hourOfDay : ℕ
  minuteOfHour : ℕ

/-- Embedding of `getZonedDate(tz)` (lines 174-194) restricted to the fields
the claims read: the current instant, given as UTC minutes since midnight,
is shifted by the offset of the target zone and reduced to a wall clock.
The source formats the instant in the target zone and reparses the fields
without any zone suffix, so the reconstructed `Date` carries exactly the
wall-clock fields of the target zone. -/
def getZonedDate (utcMinutesOfDay : ℕ) (tz : String) : Option ZonedWallClock :=
  (zoneOffsetMinutes tz).map fun off =>
    let total := (((utcMinutesOfDay : ℤ) + off) % 1440).toNat
    ⟨total / 60, total % 60⟩

/-- Embedding of `formatHhMm` (lines 168-172) on a projected wall clock. -/
def formatHhMm (w : ZonedWallClock) : String :=
  formatTwoDigits w.hourOfDay ++ ":" ++ formatTwoDigits w.minuteOfHour

/-! ## Steps simulator (useSimulatedSteps, lines 69-80)

An instant is represented by its milliseconds since local midnight
`msOfDay`, with `msOfDay < 86400000` on a standard 24-hour day;
`now.getTime() - startOfDay.getTime()` is `msOfDay` and `now.getHours()`
is `msOfDay / 3600000`. -/

/-- JavaScript `Math.round` on reals: rounds half toward positive infinity. -/
noncomputable def jsRound (x : ℝ) : ℤ := ⌊x + 1/2⌋

/-- `now.getHours()` of the instant. -/
def jsHours (msOfDay : ℕ) : ℕ := msOfDay / 3600000

/-- Line 76: `clamp((now.getTime() - startOfDay.getTime()) / (24*3600*1000), 0, 1)`. -/
noncomputable def dayProgress (msOfDay : ℕ) : ℝ :=
  clamp ((msOfDay : ℝ) / 86400000) 0 1

/-- Line 77: `0.5 + 0.5 * Math.sin((now.getHours() - 6) / 24 * Math.PI * 2)`. -/
noncomputable def circadian (msOfDay : ℕ) : ℝ :=
  1/2 + 1/2 * Real.sin (((jsHours msOfDay : ℝ) - 6) / 24 * (Real.pi * 2))

/-- Lines 78-79: `Math.round(goal * dayProgress * (0.7 + 0.6 * circadian))`
clamped to `[0, goal]` with `goal = 10000`. -/
noncomputable def simulatedSteps (msOfDay : ℕ) : ℤ :=
  clamp (jsRound (10000 * dayProgress msOfDay * (7/10 + 6/10 * circadian msOfDay))) 0 10000


/-! ## Helper lemmas about the steps simulator -/

lemma dayProgress_nonneg (ms : ℕ) : 0 ≤ dayProgress ms :=
  le_min (by norm_num) (le_max_left 0 _)

lemma dayProgress_le_one (ms : ℕ) : dayProgress ms ≤ 1 := min_le_left _ _

lemma dayProgress_le (ms : ℕ) : dayProgress ms ≤ (ms : ℝ) / 86400000 := by
  unfold dayProgress clamp
  refine le_trans (min_le_right _ _) (max_le ?_ le_rfl)
  positivity

lemma dayProgress_eq (ms : ℕ) (h : ms ≤ 86400000) : dayProgress ms = (ms : ℝ) / 86400000 := by
  unfold dayProgress clamp
  have h0 : (0:ℝ) ≤ (ms : ℝ) / 86400000 := by positivity
  have h1 : (ms : ℝ) / 86400000 ≤ 1 := by
    rw [div_le_one (by norm_num)]
    exact_mod_cast le_trans (Nat.cast_le.mpr h) (by norm_num)
  rw [max_eq_right h0, min_eq_right h1]

lemma circadian_nonneg (ms : ℕ) : 0 ≤ circadian ms := by
  unfold circadian
  nlinarith [Real.neg_one_le_sin (((jsHours ms : ℝ) - 6) / 24 * (Real.pi * 2))]

lemma circadian_le_one (ms : ℕ) : circadian ms ≤ 1 := by
  unfold circadian
  nlinarith [Real.sin_le_one (((jsHours ms : ℝ) - 6) / 24 * (Real.pi * 2))]

lemma sin_pi_div_twelve_gt : (1:ℝ)/4 < Real.sin (Real.pi/12) := by
  have h1 : (0:ℝ) < Real.pi/12 := by positivity
  have h2 : Real.pi/12 ≤ 1 := by nlinarith [Real.pi_lt_d2]
  have h3 := Real.sin_gt_sub_cube h1 h2
  have h4 : Real.pi/12 < 0.2625 := by nlinarith [Real.pi_lt_d2]
  have h5 : (0.26166 : ℝ) < Real.pi/12 := by nlinarith [Real.pi_gt_d2]
  have h6 : (Real.pi/12)^3 ≤ (0.2625:ℝ)^3 := pow_le_pow_left₀ (by positivity) (le_of_lt h4) 3
  nlinarith

lemma sin_seven_pi_div_twelve_bounds :
    (0.9658 : ℝ) ≤ Real.sin (7 * Real.pi / 12) ∧ Real.sin (7 * Real.pi / 12) ≤ 0.966 := by
  have he : Real.sin (7 * Real.pi / 12) =
      Real.sqrt 3 / 2 * (Real.sqrt 2 / 2) + 1 / 2 * (Real.sqrt 2 / 2) := by
    rw [show (7:ℝ) * Real.pi / 12 = Real.pi/3 + Real.pi/4 by ring]
    rw [Real.sin_add, Real.sin_pi_div_three, Real.cos_pi_div_four, Real.cos_pi_div_three,
      Real.sin_pi_div_four]
  have s2u : Real.sqrt 2 ≤ 1.41422 := by
    nlinarith [Real.sq_sqrt (show (0:ℝ) ≤ 2 by norm_num), Real.sqrt_nonneg 2]
  have s2l : (1.4142 : ℝ) ≤ Real.sqrt 2 := by
    nlinarith [Real.sq_sqrt (show (0:ℝ) ≤ 2 by norm_num), Real.sqrt_nonneg 2]
  have s3u : Real.sqrt 3 ≤ 1.7321 := by
    nlinarith [Real.sq_sqrt (show (0:ℝ) ≤ 3 by norm_num), Real.sqrt_nonneg 3]
  have s3l : (1.732 : ℝ) ≤ Real.sqrt 3 := by
    nlinarith [Real.sq_sqrt (show (0:ℝ) ≤ 3 by norm_num), Real.sqrt_nonneg 3]
  rw [he]
  constructor <;> nlinarith

/-- At 12:59:59 local time (46799000 ms into the day, hour 12) the steps
value is 7042: the circadian weight peaks because sin is evaluated at pi/2. -/
lemma steps_at_125959 : simulatedSteps 46799000 = 7042 := by
  have hh : jsHours 46799000 = 12 := by norm_num [jsHours]
  have hc : circadian 46799000 = 1 := by
    unfold circadian
    rw [hh]
    rw [show ((12:ℕ):ℝ) = 12 by norm_num]
    rw [show ((12:ℝ) - 6) / 24 * (Real.pi * 2) = Real.pi/2 by ring]
    rw [Real.sin_pi_div_two]
    norm_num
  have hp : dayProgress 46799000 = (46799000 : ℝ) / 86400000 := dayProgress_eq _ (by norm_num)
  unfold simulatedSteps
  rw [hc, hp]
  have hx : (10000 : ℝ) * ((46799000 : ℝ) / 86400000) * (7/10 + 6/10 * 1) = 608387000/86400 := by
    norm_num
  rw [hx]
  have hr : jsRound ((608387000 : ℝ)/86400) = 7042 := by
    unfold jsRound
    rw [Int.floor_eq_iff]
    norm_num
  rw [hr]
  decide

/-- At 13:00:00 local time (46800000 ms into the day, hour 13) the steps
value is 6986: the circadian weight has dropped with the new integer hour. -/
lemma steps_at_130000 : simulatedSteps 46800000 = 6986 := by
  have hh : jsHours 46800000 = 13 := by norm_num [jsHours]
  obtain ⟨hsl, hsu⟩ := sin_seven_pi_div_twelve_bounds
  have hc : circadian 46800000 = 1/2 + 1/2 * Real.sin (7 * Real.pi / 12) := by
    unfold circadian
    rw [hh]
    rw [show (((13:ℕ):ℝ) - 6) / 24 * (Real.pi * 2) = 7 * Real.pi / 12 by push_cast; ring]
  have hp : dayProgress 46800000 = (46800000 : ℝ) / 86400000 := dayProgress_eq _ (by norm_num)
  unfold simulatedSteps
  rw [hc, hp]
  have hr : jsRound ((10000 : ℝ) * ((46800000 : ℝ) / 86400000) *
      (7/10 + 6/10 * (1/2 + 1/2 * Real.sin (7 * Real.pi / 12)))) = 6986 := by
    unfold jsRound
    rw [Int.floor_eq_iff]
    constructor
    · push_cast
      nlinarith
    · push_cast
      nlinarith
  rw [hr]
  decide

/-! ## Claim theorems -/

/-- C1, counterexample.  The claim states that a fetch attempt with a
malformed payload leaves the snapshot field-for-field unchanged and that a
snapshot holding valid data never reverts to null fields.  It is false: a
response that is 200 OK and parses as JSON, but does not contain the
expected fields, wholesale-replaces a previously valid snapshot with all
fields null. -/
theorem claim_c1_counterexample :
    fetchWeatherUpdate
        ⟨some 20, some 3, some (Json.str ("2024-06-01T04:45:00Z")),
          some (Json.str ("2024-06-01T20:15:00Z"))⟩
        (FetchOutcome.parsed (Json.obj [(("error"), Json.str ("rate limited"))])) ≠
      ⟨some 20, some 3, some (Json.str ("2024-06-01T04:45:00Z")),
        some (Json.str ("2024-06-01T20:15:00Z"))⟩ ∧
    (fetchWeatherUpdate
        ⟨some 20, some 3, some (Json.str ("2024-06-01T04:45:00Z")),
          some (Json.str ("2024-06-01T20:15:00Z"))⟩
        (FetchOutcome.parsed (Json.obj [(("error"), Json.str ("rate limited"))]))).temperatureC
      = none := by
  constructor
  · intro h
    have h2 := congrArg WeatherData.temperatureC h
    simp [fetchWeatherUpdate, extractSnapshot, Json.getField, List.lookup] at h2
  · rfl

/-- C1, amended.  A fetch attempt that throws (network error, non-OK HTTP
status, or a body that fails JSON parsing) leaves the snapshot unchanged
field-for-field; a payload that parses as JSON always replaces the snapshot
wholesale in a single update, independent of the previous snapshot, with
each individually missing or mistyped field becoming null. -/
theorem claim_c1_amended : ∀ (d : WeatherData) (j : Json),
    fetchWeatherUpdate d FetchOutcome.networkError = d ∧
    fetchWeatherUpdate d FetchOutcome.httpError = d ∧
    fetchWeatherUpdate d FetchOutcome.jsonParseError = d ∧
    fetchWeatherUpdate d (FetchOutcome.parsed j) = extractSnapshot j :=
  fun _ _ => ⟨rfl, rfl, rfl, rfl⟩

/-- C2, counterexample.  The claim states the initial battery value lies in
[0,100] for every persisted baseline and timestamp and every current time,
including a current time earlier than the stored timestamp.  It is false:
with persisted baseline 80 and a current time 1000 minutes before the
stored timestamp (elapsed -60000000 ms), the computed value is 120. -/
theorem claim_c2_counterexample :
    batteryInit 80 (-60000000) = 120 ∧ ¬ batteryInit 80 (-60000000) ≤ 100 := by
  unfold batteryInit jsRoundQ
  norm_num [max_eq_right, Int.floor_eq_iff]

/-- C2, amended.  The initial battery value is always at least 0 (it is
floored at 0); it is at most 100 whenever the persisted baseline is at most
100 and the elapsed time is nonnegative (but can exceed 100 for a negative
elapsed time); and every per-tick decay step always yields a value in
[0,100], for every input value, including one above 100 produced by an
out-of-range initialization. -/
theorem claim_c2_amended : ∀ baseline elapsedMs b : ℚ,
    0 ≤ batteryInit baseline elapsedMs ∧
    (baseline ≤ 100 → 0 ≤ elapsedMs → batteryInit baseline elapsedMs ≤ 100) ∧
    (0 ≤ batteryTick b ∧ batteryTick b ≤ 100) := by
  intro baseline elapsedMs b
  refine ⟨?_, ?_, ?_⟩
  · unfold batteryInit jsRoundQ
    have h1 : (0:ℚ) ≤ max 0 (baseline - elapsedMs / 60000 * (4/100)) * 10 := by positivity
    have h2 : (0:ℤ) ≤ ⌊max 0 (baseline - elapsedMs / 60000 * (4/100)) * 10 + 1/2⌋ := by
      apply Int.floor_nonneg.mpr; linarith
    simp only []
    positivity
  · intro hb he
    unfold batteryInit jsRoundQ
    have hd : max 0 (baseline - elapsedMs / 60000 * (4/100)) ≤ 100 := by
      apply max_le (by norm_num)
      have : 0 ≤ elapsedMs / 60000 * (4/100) := by positivity
      linarith
    have h2 : ⌊max 0 (baseline - elapsedMs / 60000 * (4/100)) * 10 + 1/2⌋ ≤ 1000 := by
      have hlt : max 0 (baseline - elapsedMs / 60000 * (4/100)) * 10 + 1/2 < ((1001 : ℤ) : ℚ) := by
        push_cast
        linarith
      exact Int.lt_add_one_iff.mp (Int.floor_lt.mpr hlt)
    simp only []
    rw [div_le_iff₀ (by norm_num : (0:ℚ) < 10)]
    calc ((⌊max 0 (baseline - elapsedMs / 60000 * (4/100)) * 10 + 1/2⌋ : ℚ))
        ≤ ((1000 : ℤ) : ℚ) := by exact_mod_cast h2
      _ = 100 * 10 := by norm_num
  · constructor
    · unfold batteryTick clamp
      exact le_min (by norm_num) (le_max_left 0 _)
    · unfold batteryTick clamp
      exact min_le_left _ _

/-- C2, witness: the amended theorem applied at baseline 80, elapsed one
hour, and per-tick value 120 (the out-of-range state produced by the
counterexample initialization). -/
theorem claim_c2_witness :
    (80 : ℚ) ≤ 100 ∧ (0:ℚ) ≤ 3600000 ∧
    0 ≤ batteryInit 80 3600000 ∧ batteryInit 80 3600000 ≤ 100 ∧
    0 ≤ batteryTick 120 ∧ batteryTick 120 ≤ 100 :=
  ⟨by norm_num, by norm_num,
    (claim_c2_amended 80 3600000 120).1,
    (claim_c2_amended 80 3600000 120).2.1 (by norm_num) (by norm_num),
    (claim_c2_amended 80 3600000 120).2.2.1,
    (claim_c2_amended 80 3600000 120).2.2.2⟩

/-- C3, counterexample.  The claim states steps never decrease between two
instants of the same calendar day.  It is false: at 12:59:59 (46799000 ms
into the day) the steps value is 7042, while one second later at 13:00:00
(46800000 ms, same day) it is 6986, because the circadian weight is
computed from the integer hour and drops at the hour boundary. -/
theorem claim_c3_counterexample :
    (46799000 : ℕ) ≤ 46800000 ∧ (46800000 : ℕ) < 86400000 ∧
    simulatedSteps 46800000 < simulatedSteps 46799000 := by
  refine ⟨by norm_num, by norm_num, ?_⟩
  rw [steps_at_125959, steps_at_130000]
  decide

/-- C3, amended.  Between two instants of the same day that fall in the same
integer wall-clock hour, the steps value is monotonically non-decreasing
(the circadian weight is constant within an hour and the day fraction grows);
steps can decrease at hour boundaries within a day. -/
theorem claim_c3_amended : ∀ ms1 ms2 : ℕ, ms1 ≤ ms2 → ms2 < 86400000 →
    jsHours ms1 = jsHours ms2 → simulatedSteps ms1 ≤ simulatedSteps ms2 := by
  intro ms1 ms2 h12 _ hhour
  have hc : circadian ms1 = circadian ms2 := by unfold circadian; rw [hhour]
  have hp : dayProgress ms1 ≤ dayProgress ms2 := by
    unfold dayProgress clamp
    refine min_le_min le_rfl (max_le_max le_rfl ?_)
    gcongr
  have hw0 : (0:ℝ) ≤ 7/10 + 6/10 * circadian ms2 := by
    nlinarith [circadian_nonneg ms2]
  have hx : (10000:ℝ) * dayProgress ms1 * (7/10 + 6/10 * circadian ms1) ≤
      10000 * dayProgress ms2 * (7/10 + 6/10 * circadian ms2) := by
    rw [hc]
    nlinarith [dayProgress_nonneg ms1]
  unfold simulatedSteps clamp
  refine min_le_min le_rfl (max_le_max le_rfl ?_)
  exact Int.floor_le_floor (by linarith)

/-- C3, witness: the amended theorem applied at 00:00:01 and 00:00:02. -/
theorem claim_c3_witness :
    (1000 : ℕ) ≤ 2000 ∧ (2000 : ℕ) < 86400000 ∧ jsHours 1000 = jsHours 2000 ∧
    simulatedSteps 1000 ≤ simulatedSteps 2000 :=
  ⟨by norm_num, by norm_num, by decide,
    claim_c3_amended 1000 2000 (by norm_num) (by norm_num) (by decide)⟩

/-- C4, counterexample.  The claim states that at most one current-conditions
request is initiated per new clock-minute.  It is false: the weather effect
depends on the `now` object, which is fresh on every one-second tick, so two
ticks inside the same minute initiate two requests. -/
theorem claim_c4_counterexample :
    sameMinute ⟨1, 0⟩ ⟨2, 1000⟩ ∧
    weatherRequestCount ⟨0, 0⟩ [⟨1, 0⟩, ⟨2, 1000⟩] = 2 ∧
    ¬ weatherRequestCount ⟨0, 0⟩ [⟨1, 0⟩, ⟨2, 1000⟩] ≤ 1 :=
  ⟨rfl, by decide, by decide⟩

/-- C4, amended.  The weather fetcher initiates exactly one
current-conditions request per clock tick (one per second), because the
effect re-runs whenever the freshly allocated `now` dependency changes and
every run initiates one fetch; no per-minute debouncing exists. -/
theorem claim_c4_amended : ∀ (prev : Tick) (ticks : List Tick),
    allFresh prev ticks = true → weatherRequestCount prev ticks = ticks.length := by
  intro prev ticks
  induction ticks generalizing prev with
  | nil => intro _; rfl
  | cons t rest ih =>
    intro hf
    simp only [allFresh, Bool.and_eq_true] at hf
    simp only [weatherRequestCount, hf.1, if_pos, List.length_cons, fetchesPerEffectRun,
      ih t hf.2]
    omega

/-- C4, witness: the amended theorem applied to two fresh ticks one second
apart. -/
theorem claim_c4_witness :
    allFresh ⟨10, 0⟩ [⟨11, 30000⟩, ⟨12, 31000⟩] = true ∧
    weatherRequestCount ⟨10, 0⟩ [⟨11, 30000⟩, ⟨12, 31000⟩] = 2 :=
  ⟨by decide, (claim_c4_amended ⟨10, 0⟩ [⟨11, 30000⟩, ⟨12, 31000⟩] (by decide)).trans rfl⟩

/-- C5, confirmed.  For every instant (hour below 24, minute and second
below 60) the three hand angles lie in [0,360); at 00:00:00 all three are 0
and at 06:00:00 the hour hand angle is 180. -/
theorem claim_c5 : ∀ h m s : ℕ, h < 24 → m < 60 → s < 60 →
    (0 ≤ (handAngle h m s).hour ∧ (handAngle h m s).hour < 360) ∧
    (0 ≤ (handAngle h m s).minute ∧ (handAngle h m s).minute < 360) ∧
    (0 ≤ (handAngle h m s).second ∧ (handAngle h m s).second < 360) ∧
    handAngle 0 0 0 = ⟨0, 0, 0⟩ ∧ (handAngle 6 0 0).hour = 180 := by
  intro h m s _ hm hs
  have hmod : (h % 12 : ℕ) ≤ 11 := Nat.le_of_lt_succ (Nat.mod_lt h (by norm_num))
  have hmodq : ((h % 12 : ℕ) : ℚ) ≤ 11 := by exact_mod_cast hmod
  have hmq : (m : ℚ) ≤ 59 := by exact_mod_cast Nat.le_of_lt_succ hm
  have hsq : (s : ℚ) ≤ 59 := by exact_mod_cast Nat.le_of_lt_succ hs
  have hm0 : (0:ℚ) ≤ (m : ℚ) := by positivity
  have hs0 : (0:ℚ) ≤ (s : ℚ) := by positivity
  have hh0 : (0:ℚ) ≤ ((h % 12 : ℕ) : ℚ) := by positivity
  refine ⟨⟨?_, ?_⟩, ⟨?_, ?_⟩, ⟨?_, ?_⟩, by simp [handAngle], by norm_num [handAngle]⟩ <;>
    unfold handAngle <;> simp only [] <;> nlinarith

/-- C5, witness: the theorem applied at 23:59:59. -/
theorem claim_c5_witness :
    (23 : ℕ) < 24 ∧ (59 : ℕ) < 60 ∧
    ((0 ≤ (handAngle 23 59 59).hour ∧ (handAngle 23 59 59).hour < 360) ∧
      (0 ≤ (handAngle 23 59 59).minute ∧ (handAngle 23 59 59).minute < 360) ∧
      (0 ≤ (handAngle 23 59 59).second ∧ (handAngle 23 59 59).second < 360) ∧
      handAngle 0 0 0 = ⟨0, 0, 0⟩ ∧ (handAngle 6 0 0).hour = 180) :=
  ⟨by norm_num, by norm_num, claim_c5 23 59 59 (by norm_num) (by norm_num) (by norm_num)⟩

/-- C6, confirmed.  The weather-code-to-icon mapping is total: for every
input, every rational code (in particular every integer, including codes
outside all listed category sets) and the null code, it returns one of the
icon strings appearing in the source and cannot raise an exception. -/
theorem claim_c6 : ∀ code : Option ℚ,
    mapWeatherCodeToIcon code = ("?" : String) ∨ mapWeatherCodeToIcon code = ("??" : String) := by
  intro code
  rcases code with _ | c
  · left; rfl
  · show (if c ∈ ([0] : List ℚ) then ("?":String) else _) = ("?":String) ∨
      (if c ∈ ([0] : List ℚ) then ("?":String) else _) = ("??":String)
    split_ifs <;> simp

/-- C7, confirmed (timezone database modelled from the spec).  Projecting
the sample instants into the sample zones and formatting yields the
expected zero-padded wall-clock strings; in particular 2024-01-01T00:00:00Z
in Asia/Tokyo gives 09:00.  The other samples: the same instant in UTC and
in Asia/Dubai, and the instants 03:26Z and 23:30Z in Asia/Tokyo. -/
theorem claim_c7 :
    (getZonedDate 0 ("Asia/Tokyo")).map formatHhMm = some ("09:00") ∧
    (getZonedDate 0 ("UTC")).map formatHhMm = some ("00:00") ∧
    (getZonedDate 0 ("Asia/Dubai")).map formatHhMm = some ("04:00") ∧
    (getZonedDate 206 ("Asia/Tokyo")).map formatHhMm = some ("12:26") ∧
    (getZonedDate 1410 ("Asia/Tokyo")).map formatHhMm = some ("08:30") := by
  refine ⟨?_, ?_, ?_, ?_, ?_⟩ <;> decide

/-- C8, confirmed.  With persisted baseline 80 and a current time exactly 60
minutes (3600000 ms) after the stored timestamp, the initial battery value
is 80 - 60 times 0.04 = 77.6, which lies within [0,100]. -/
theorem claim_c8 :
    batteryInit 80 3600000 = 388/5 ∧
    0 ≤ batteryInit 80 3600000 ∧ batteryInit 80 3600000 ≤ 100 := by
  unfold batteryInit jsRoundQ
  norm_num [max_eq_right, Int.floor_eq_iff]

/-- C9, confirmed.  For every instant of the day the steps value is strictly
below the 10000-step goal: the product of the day fraction and the weight
0.7 + 0.6 * circadian stays below 1 in every integer hour, so the upper
clamp at the goal is never active. -/
theorem claim_c9 : ∀ ms : ℕ, ms < 86400000 → simulatedSteps ms < 10000 := by
  intro ms hms
  have hh24 : jsHours ms < 24 := by unfold jsHours; omega
  have hmslt : ms < (jsHours ms + 1) * 3600000 := by unfold jsHours; omega
  have hp0 := dayProgress_nonneg ms
  have hp1 := dayProgress_le_one ms
  have hpq := dayProgress_le ms
  have hc0 := circadian_nonneg ms
  have hc1 := circadian_le_one ms
  suffices hx : 10000 * dayProgress ms * (7/10 + 6/10 * circadian ms) < 19999/2 by
    unfold simulatedSteps clamp
    have hr : jsRound (10000 * dayProgress ms * (7/10 + 6/10 * circadian ms)) < 10000 := by
      unfold jsRound
      apply Int.floor_lt.mpr
      push_cast
      linarith
    calc min 10000 (max 0 (jsRound (10000 * dayProgress ms * (7/10 + 6/10 * circadian ms))))
        ≤ max 0 (jsRound (10000 * dayProgress ms * (7/10 + 6/10 * circadian ms))) :=
          min_le_right _ _
      _ < 10000 := max_lt (by norm_num) hr
  rcases lt_or_le (jsHours ms) 18 with h18 | h18
  · -- hours 0 to 17: the day fraction is below 3/4 and the weight at most 1.3
    have hq : (ms : ℝ) < 64800000 := by
      have : ms < 64800000 := by omega
      exact_mod_cast this
    have hp : dayProgress ms < 3/4 := by
      apply lt_of_le_of_lt hpq
      rw [div_lt_iff₀ (by norm_num)]
      linarith
    nlinarith
  · rcases Nat.eq_or_lt_of_le h18 with h18e | h19
    · -- hour 18: the sine vanishes and the weight is exactly 1
      have hc : circadian ms = 1/2 := by
        unfold circadian
        rw [← h18e]
        rw [show (((18:ℕ):ℝ) - 6) / 24 * (Real.pi * 2) = Real.pi by push_cast; ring]
        rw [Real.sin_pi]
        norm_num
      have hq : (ms : ℝ) < 68400000 := by
        have : ms < 68400000 := by omega
        exact_mod_cast this
      have hp : dayProgress ms < 19/24 := by
        apply lt_of_le_of_lt hpq
        rw [div_lt_iff₀ (by norm_num)]
        linarith
      rw [hc]
      nlinarith
    · -- hours 19 to 23: the sine term is negative enough
      have hhr : (19 : ℝ) ≤ (jsHours ms : ℝ) := by exact_mod_cast h19
      have hhr24 : (jsHours ms : ℝ) ≤ 23 := by
        have : jsHours ms ≤ 23 := by omega
        exact_mod_cast this
      set y : ℝ := ((jsHours ms : ℝ) - 18) * (Real.pi/12) with hy
      have hsplit : ((jsHours ms : ℝ) - 6) / 24 * (Real.pi * 2) = Real.pi + y := by
        rw [hy]; ring
      have hsin : Real.sin (((jsHours ms : ℝ) - 6) / 24 * (Real.pi * 2)) = - Real.sin y := by
        rw [hsplit, Real.sin_add, Real.sin_pi, Real.cos_pi]; ring
      have hy_lb : Real.pi/12 ≤ y := by
        rw [hy]
        nlinarith [Real.pi_pos]
      have hy_ub : y ≤ 5 * (Real.pi/12) := by
        rw [hy]
        nlinarith [Real.pi_pos]
      have hmem1 : Real.pi/12 ∈ Set.Icc (-(Real.pi/2)) (Real.pi/2) := by
        constructor <;> nlinarith [Real.pi_pos]
      have hmem2 : y ∈ Set.Icc (-(Real.pi/2)) (Real.pi/2) := by
        constructor <;> nlinarith [Real.pi_pos]
      have hmono : Real.sin (Real.pi/12) ≤ Real.sin y :=
        Real.strictMonoOn_sin.monotoneOn hmem1 hmem2 hy_lb
      have hsy : Real.sin y > 1/4 := lt_of_lt_of_le sin_pi_div_twelve_gt hmono
      have hcirc : circadian ms < 3/8 := by
        unfold circadian
        rw [hsin]
        linarith
      nlinarith

/-- C9, witness: the theorem applied at midnight. -/
theorem claim_c9_witness : (0 : ℕ) < 86400000 ∧ simulatedSteps 0 < 10000 :=
  ⟨by norm_num, claim_c9 0 (by norm_num)⟩

/-- C10, confirmed.  Each per-tick battery update maps a value b in [0,100]
to clamp(b - 0.0007, 0, 100), which never exceeds b: the battery is
monotonically non-increasing between consecutive ticks. -/
theorem claim_c10 : ∀ b : ℚ, 0 ≤ b → b ≤ 100 → batteryTick b ≤ b := by
  intro b h0 _
  unfold batteryTick clamp
  calc min 100 (max 0 (b - 7/10000)) ≤ max 0 (b - 7/10000) := min_le_right _ _
    _ ≤ b := max_le h0 (by linarith)

/-- C10, witness: the theorem applied at b = 50. -/
theorem claim_c10_witness : (0:ℚ) ≤ 50 ∧ (50:ℚ) ≤ 100 ∧ batteryTick 50 ≤ 50 :=
  ⟨by norm_num, by norm_num, claim_c10 50 (by norm_num) (by norm_num)⟩

end Watchface
